import Mathlib

/-!
Verification of the x402-grid-ui payment-gating flow.

This file gives a shallow embedding of the repository's payment-gated API
routes and client helpers, and proves the behavioural claims about them:

* `src/lib/x402-config.ts` — the static configuration (`payToAddr`, `prices`);
* `src/app/api/render-ui/route.ts` and `src/app/api/premium-ui/route.ts` —
  the POST handlers (`generateUI`, `generatePremiumUI`, `handlerPOST`);
* `src/lib/solana-payment.ts` — `verifyPaymentTransaction`;
* `src/app/api/verify-payment/route.ts` — `verifyPaymentPOST`;
* `src/lib/x402-client.ts` — `fetchWithPayment`;
* the client-side `UIRenderer` component — `uiRenderer`.

Effectful boundaries (the `x402-solana` library, the Solana RPC connection,
`fetch`, `Math.random`, `Date.now`) are passed in explicitly as oracle
values/functions, so every handler is a pure function of its request and of
the external world it observed.
-/

namespace X402Grid

/-! ## JavaScript value helpers

The TypeScript code relies on JS truthiness: `null`/`undefined`, the empty
string, and the number `0` are falsy; objects and arrays (even empty ones)
are truthy.
-/

/-- Truthiness of an optional string header/field: absent (`null`) and the
empty string are falsy. -/
def truthyStr : Option String → Bool
  | none => false
  | some s => !s.isEmpty

/-- JS `a || d` for an optional number field: absent and `0` fall back to
the default (`0` is falsy in JS). -/
def jsOrRat (v : Option ℚ) (d : ℚ) : ℚ :=
  match v with
  | none => d
  | some q => if q = 0 then d else q

/-- JS `a || d` for an optional string field: absent and `""` fall back to
the default. -/
def jsOrStr (v : Option String) (d : String) : String :=
  match v with
  | none => d
  | some s => if s.isEmpty then d else s

/-- JS `a || d` for an optional array field: only absence falls back (an
empty array is truthy in JS). -/
def jsOrList (v : Option (List α)) (d : List α) : List α :=
  v.getD d

/-- `Array.from({length: n})` item count: ToLength clamps negatives to `0`
and truncates fractions. -/
def jsLength (q : ℚ) : Nat :=
  q.floor.toNat

/-- `Array.prototype.findIndex`, with `-1` (not found) modelled as `none`. -/
def findIndexJs (p : α → Bool) : List α → Option Nat
  | [] => none
  | a :: as => if p a then some 0 else (findIndexJs p as).map (· + 1)

/-! ## Configuration (`src/lib/x402-config.ts`) -/

/-- `x402Config.payTo`. -/
def payToAddr : String := "8MeWTYDip5SWVJf3wkvDKZw9BjSAWMXm5oAeELJ6HFM9"

/-- `x402Config.asset`. -/
def assetName : String := "SOL"

/-- The property keys a plain object literal inherits from
`Object.prototype` (including the Annex B accessors present in Node and
browsers).  JS bracket lookup consults the prototype chain, so reading one
of these keys off an object literal yields the inherited member — a
function, or the prototype object itself for `__proto__` — all of which
are truthy, rather than `undefined`. -/
def objectPrototypeKeys : List String :=
  ["constructor", "hasOwnProperty", "isPrototypeOf", "propertyIsEnumerable",
    "toLocaleString", "toString", "valueOf", "__proto__",
    "__defineGetter__", "__defineSetter__", "__lookupGetter__", "__lookupSetter__"]

/-- The result of the JS bracket lookup `x402Config.prices[endpoint]`. -/
inductive JsPriceResult where
  /-- an own entry of the price table (all configured prices are nonzero,
  hence truthy). -/
  | price (lamports : ℕ)
  /-- a truthy member inherited from `Object.prototype` at the given key. -/
  | protoMember (key : String)
  /-- `undefined`: the key is neither an own entry nor inherited. -/
  | undefinedValue
  deriving DecidableEq, Repr

/-- `x402Config.prices[endpoint]`: own entries first, then the prototype
chain, then `undefined`. -/
def prices (endpoint : String) : JsPriceResult :=
  if endpoint = "/api/render-ui" then .price 500000
  else if endpoint = "/api/premium-ui" then .price 500000
  else if endpoint = "https://grid.wtf/api/x402/v1/new-markets" then .price 500000
  else if endpoint ∈ objectPrototypeKeys then .protoMember endpoint
  else .undefinedValue

/-- The lamport value of a price entry.  The two UI routes read their
prices with the literal configured keys (`x402Config.prices['/api/...']`),
which are own entries, so only the `price` case ever arises there. -/
def priceLamports : JsPriceResult → ℕ
  | .price n => n
  | _ => 0

/-! ## UI data model (`src/lib/types.ts`, `src/unnamed/part_000`) -/

/-- An action of a card component. -/
structure CardAction where
  label : String
  variant : String
  deriving DecidableEq, Repr

/-- The request-body `config` object, as the union of the optional fields
the two generators read from it (`GridConfig | CardConfig | DashboardConfig`;
absent fields are `none`). -/
structure UIConfigR where
  columns : Option ℚ := none
  gap : Option ℚ := none
  itemCount : Option ℚ := none
  title : Option String := none
  content : Option String := none
  actions : Option (List CardAction) := none
  deriving DecidableEq, Repr

/-- One item of the basic grid template. -/
structure GridItem where
  id : ℤ
  title : String
  description : String
  color : String
  deriving DecidableEq, Repr

/-- Layout of the basic grid template. -/
structure GridLayout where
  columns : ℚ
  gap : ℚ
  items : List GridItem
  deriving DecidableEq, Repr

/-- A dashboard widget (`stat` or `chart`). -/
inductive Widget where
  | stat (label value trend : String)
  | chart (label : String) (data : List ℤ)
  deriving DecidableEq, Repr

/-- One item of the premium advanced grid; `rating` keeps the numeric value
`4 + Math.random()` (the source formats it with `toFixed(1)`). -/
structure AdvItem where
  id : ℤ
  title : String
  description : String
  image : String
  color : String
  features : List String
  rating : ℚ
  deriving DecidableEq, Repr

/-- A column descriptor of the premium data table. -/
structure DataColumn where
  key : String
  label : String
  sortable : Bool := false
  filterable : Bool := false
  deriving DecidableEq, Repr

/-- One row of the premium data table. -/
structure TableRow where
  id : ℤ
  name : String
  value : ℤ
  status : String
  deriving DecidableEq, Repr

/-- A metric widget of the analytics dashboard. -/
structure MetricW where
  label : String
  value : String
  change : String
  deriving DecidableEq, Repr

/-- A chart of the analytics dashboard. -/
structure ChartW where
  kind : String
  label : String
  data : List ℤ
  deriving DecidableEq, Repr

/-- A section of the analytics dashboard. -/
structure AnalyticsSection where
  title : String
  widgets : List MetricW := []
  charts : List ChartW := []
  deriving DecidableEq, Repr

/-- A single Polymarket market entry of the markets payload. -/
structure MarketData where
  id : String
  question : String
  yesPrice : ℚ
  noPrice : ℚ
  volume : ℚ
  liquidity : ℚ
  deriving DecidableEq, Repr

/-- Metadata of the markets payload. -/
structure MarketsMeta where
  hoursBack : ℤ
  cutoffTime : String
  polymarketCount : ℤ
  totalCount : ℤ
  x402Protected : Bool
  deriving DecidableEq, Repr

/-- `UIData`: the seven UI payload shapes, discriminated by their `type`
field (`grid`, `card`, `dashboard`, `advanced-grid`, `data-table`,
`analytics-dashboard`, `markets`). -/
inductive UIData where
  | grid (layout : GridLayout)
  | card (title content : String) (actions : List CardAction)
  | dashboard (widgets : List Widget)
  | advancedGrid (columns : ℚ) (rows : String) (gap : ℚ) (items : List AdvItem)
      (animations : Bool) (interactions : List String)
  | dataTable (columns : List DataColumn) (data : List TableRow) (features : List String)
  | analyticsDashboard (sections : List AnalyticsSection)
  | markets (markets : List MarketData) (meta : MarketsMeta)
  deriving DecidableEq, Repr

/-- The result of the JS bracket lookup `templates[componentType] ||
defaultTemplate` on a template object literal: either a template payload,
or — when `componentType` is an inherited `Object.prototype` key — the
truthy inherited member, which short-circuits the `||` fallback and is not
a UI payload (JSON serialization then drops the function-valued `ui`
field from the response). -/
inductive JsUIResult where
  | ui (u : UIData)
  | protoMember (key : String)
  deriving DecidableEq, Repr

/-- The `type` discriminant string of a UI payload. -/
def uiTypeName : UIData → String
  | .grid _ => "grid"
  | .card _ _ _ => "card"
  | .dashboard _ => "dashboard"
  | .advancedGrid _ _ _ _ _ _ => "advanced-grid"
  | .dataTable _ _ _ => "data-table"
  | .analyticsDashboard _ => "analytics-dashboard"
  | .markets _ _ => "markets"

/-! ## Basic UI templates (`src/app/api/render-ui/route.ts`, `generateUI`) -/

/-- The `grid` template of `generateUI`. -/
def gridTemplate (config : UIConfigR) : UIData :=
  .grid
    { columns := jsOrRat config.columns 3
      gap := jsOrRat config.gap 4
      items := (List.range (jsLength (jsOrRat config.itemCount 6))).map fun (i : ℕ) =>
        { id := (i : ℤ) + 1
          title := s!"Grid Item {i + 1}"
          description := "This is a dynamically rendered grid item"
          color := s!"hsl({(i * 60) % 360}, 70%, 50%)" } }

/-- The `card` template of `generateUI`. -/
def cardTemplate (config : UIConfigR) : UIData :=
  .card (jsOrStr config.title "Dynamic Card")
    (jsOrStr config.content "This is a dynamically rendered card component")
    (jsOrList config.actions
      [{ label := "Action 1", variant := "primary" },
       { label := "Action 2", variant := "secondary" }])

/-- The `dashboard` template of `generateUI`. -/
def dashboardTemplate : UIData :=
  .dashboard
    [ .stat "Total Users" "1,234" "+12%",
      .stat "Revenue" "$45.6K" "+8%",
      .stat "Conversions" "89%" "+3%",
      .chart "Activity" [30, 40, 35, 50, 49, 60, 70] ]

/-- `generateUI`: `uiTemplates[componentType] || uiTemplates.grid`.  Every
own template value is a truthy object; bracket lookup also consults the
prototype chain, so an inherited `Object.prototype` key yields the truthy
inherited member and the `||` fallback fires only on keys that are neither
own nor inherited. -/
def generateUI (componentType : String) (config : UIConfigR) : JsUIResult :=
  if componentType = "grid" then .ui (gridTemplate config)
  else if componentType = "card" then .ui (cardTemplate config)
  else if componentType = "dashboard" then .ui dashboardTemplate
  else if componentType ∈ objectPrototypeKeys then .protoMember componentType
  else .ui (gridTemplate config)

/-! ## Premium UI templates (`src/app/api/premium-ui/route.ts`,
`generatePremiumUI`)

`Math.random()` is passed in as an oracle `r : ℕ → ℚ`, consumed in the
order the source calls it. -/

/-- The `advanced-grid` template of `generatePremiumUI`. -/
def advancedGridTemplate (r : ℕ → ℚ) (config : UIConfigR) : UIData :=
  .advancedGrid (jsOrRat config.columns 4) "auto" 6
    ((List.range (jsLength (jsOrRat config.itemCount 12))).map fun (i : ℕ) =>
      { id := (i : ℤ) + 1
        title := s!"Premium Item {i + 1}"
        description := "Premium UI with advanced features"
        image := s!"https://picsum.photos/seed/{i + 1}/400/300"
        color := s!"hsl({(i * 30) % 360}, 80%, 60%)"
        features := ["Feature A", "Feature B", "Feature C"]
        rating := 4 + r i })
    true
    ["hover", "click", "drag"]

/-- The `data-table` template of `generatePremiumUI`; each row consumes two
random draws (`value`, then `status`). -/
def dataTableTemplate (r : ℕ → ℚ) : UIData :=
  .dataTable
    [ { key := "id", label := "ID", sortable := true },
      { key := "name", label := "Name", sortable := true },
      { key := "value", label := "Value", sortable := true },
      { key := "status", label := "Status", filterable := true } ]
    ((List.range 20).map fun (i : ℕ) =>
      { id := (i : ℤ) + 1
        name := s!"Record {i + 1}"
        value := (r (2 * i) * 10000).floor
        status := (["Active", "Pending", "Inactive"].getD (r (2 * i + 1) * 3).floor.toNat "Active") })
    ["sorting", "filtering", "pagination", "export"]

/-- The `analytics` template of `generatePremiumUI` (payload type
`analytics-dashboard`). -/
def analyticsTemplate : UIData :=
  .analyticsDashboard
    [ { title := "Key Metrics"
        widgets :=
          [ { label := "Total Revenue", value := "$123,456", change := "+23.5%" },
            { label := "Active Users", value := "8,765", change := "+12.3%" },
            { label := "Conversion Rate", value := "3.45%", change := "+0.8%" },
            { label := "Avg. Order Value", value := "$89.23", change := "+5.2%" } ] },
      { title := "Performance Charts"
        charts :=
          [ { kind := "line", label := "Revenue Trend", data := [] },
            { kind := "bar", label := "User Growth", data := [] },
            { kind := "pie", label := "Traffic Sources", data := [] } ] } ]

/-- `generatePremiumUI`: `premiumTemplates[componentType] ||
premiumTemplates['advanced-grid']`, with the same prototype-chain bracket
lookup as `generateUI` (note the key is `analytics` while the payload type
is `analytics-dashboard`). -/
def generatePremiumUI (r : ℕ → ℚ) (componentType : String) (config : UIConfigR) : JsUIResult :=
  if componentType = "advanced-grid" then .ui (advancedGridTemplate r config)
  else if componentType = "data-table" then .ui (dataTableTemplate r)
  else if componentType = "analytics" then .ui analyticsTemplate
  else if componentType ∈ objectPrototypeKeys then .protoMember componentType
  else .ui (advancedGridTemplate r config)

/-! ## Solana transaction model

The slice of `connection.getTransaction`'s response the handlers read:
`meta` (with `err`, `preBalances`, `postBalances`) and the static account
keys of the message.  Lamport balances are integers.  An RPC call is an
`Except`: `.error` models a thrown/rejected promise. -/

/-- Transaction metadata: `err` is `true` when `meta.err` is non-null. -/
structure TxMeta where
  err : Bool
  preBalances : List ℤ
  postBalances : List ℤ
  deriving DecidableEq, Repr

/-- A transaction as returned by `getTransaction` (when not `null`). -/
structure TxResp where
  meta : Option TxMeta
  staticAccountKeys : List String
  deriving DecidableEq, Repr

/-- An RPC lookup outcome: a thrown error, `null`, or a transaction. -/
abbrev RpcTx := Except Unit (Option TxResp)

/-- The custom-header verification of the two UI routes: the transaction
must exist, its `meta.err` must be null, the treasury must appear among the
static account keys (`findIndex`), and the balance increase at that index
must be at least 95% of the expected price.

The source compares `amountTransferred >= expectedAmount * 0.95` in binary
floating point; for the configured price of 500000 lamports the product
`500000 * 0.95` is exactly the double `475000`, so on integer lamport
balances the comparison coincides with the exact rational one written here
(`20 * amount ≥ 19 * expected`).  Out-of-range balance indexing yields
`NaN` in JS, whose comparison is false; that is the explicit length guard. -/
def verifyCustomTx (payTo : String) (tx : Option TxResp) (expectedAmount : ℤ) : Bool :=
  match tx with
  | none => false
  | some t =>
    match t.meta with
    | none => false
    | some m =>
      if m.err then false
      else
        match findIndexJs (fun k => k = payTo) t.staticAccountKeys with
        | none => false
        | some i =>
          decide (i < m.postBalances.length) && decide (i < m.preBalances.length) &&
            decide (20 * (m.postBalances.getD i 0 - m.preBalances.getD i 0) ≥ 19 * expectedAmount)

/-! ## `src/lib/solana-payment.ts` -/

/-- `verifyPaymentTransaction(signature, connection, _expectedAmount,
_expectedRecipient)`.  The RPC lookup for the signature is passed in as
`getTx`; a thrown error is caught by the function's own `try` and yields
`false`.  The two `_expected*` parameters are declared but never read in
the source ("Additional verification logic can be added here"). -/
def verifyPaymentTransaction (getTx : RpcTx) (_expectedAmount : ℤ) (_expectedRecipient : String) :
    Bool :=
  match getTx with
  | .error _ => false
  | .ok none => false
  | .ok (some t) =>
    match t.meta with
    | none => false
    | some m => !m.err

/-! ## HTTP responses -/

/-- The JSON bodies the routes produce. -/
inductive Body where
  /-- 402 payment-required body: `paymentRequired: true` plus the terms
  (the spread of the library's `create402Response` body is behaviourally
  irrelevant because the handler overrides these fields afterwards). -/
  | paymentRequired (price : Nat) (network asset payTo : String)
  /-- An `{ error: msg }` body. -/
  | errorMsg (msg : String)
  /-- A `{ success: true, ui, tier?, message }` body (for a
  `protoMember` lookup result, serialization drops the `ui` field). -/
  | successUI (ui : JsUIResult) (tier : Option String) (message : String)
  /-- The verify-payment route's `{ verified: true, ... }` body. -/
  | verifiedTrue (signature : String) (timestamp : Nat)
  /-- The verify-payment route's `{ verified: false, error }` body. -/
  | verifiedFalse (error : String)
  deriving DecidableEq, Repr

/-- An HTTP response: status code and JSON body. -/
structure Response where
  status : Nat
  body : Body
  deriving DecidableEq, Repr

/-- Modelled from the spec: the `x402-solana` library's
`create402Response` (not part of this repository) issues "a 402 response
with payment requirements", so its status code is 402. -/
def create402Status : Nat := 402

/-! ## The two protected UI routes

`POST` of `src/app/api/render-ui/route.ts` and
`src/app/api/premium-ui/route.ts`.  The two handlers are textually
identical up to the endpoint price key, the UI generator, the `tier` field
and the messages; `EndpointCfg` captures exactly that difference. -/

/-- What distinguishes the two protected routes. -/
structure EndpointCfg where
  endpointPath : String
  gen : String → UIConfigR → JsUIResult
  tier : Option String
  successMessage : String

/-- The render-ui endpoint. -/
def renderCfg : EndpointCfg :=
  { endpointPath := "/api/render-ui"
    gen := generateUI
    tier := none
    successMessage := "UI rendered successfully" }

/-- The premium-ui endpoint (its generator consumes the `Math.random`
oracle `r`). -/
def premiumCfg (r : ℕ → ℚ) : EndpointCfg :=
  { endpointPath := "/api/premium-ui"
    gen := generatePremiumUI r
    tier := some "premium"
    successMessage := "Premium UI rendered successfully" }

/-- The external effects one execution of a protected route observes. -/
structure World where
  /-- `x402.extractPayment(req.headers)`: the standard payment header the
  library found, or `null`. -/
  extracted : Option String
  /-- whether `req.json()` resolves. -/
  jsonOk : Bool
  /-- whether `x402.createPaymentRequirements(...)` resolves. -/
  reqsOk : Bool
  /-- `x402.verifyPayment(...)`: `.isValid` of the result, or a thrown
  error (which the handler does not catch locally). -/
  x402Verify : Except Unit Bool
  /-- `connection.getTransaction(customSignature)` on the custom path. -/
  getTx : RpcTx
  /-- whether `x402.settlePayment(...)` resolves. -/
  settleOk : Bool

/-- The steps of one handler execution, in source order. -/
inductive Ev where
  /-- step 1: `x402.extractPayment` plus the custom header reads. -/
  | extract
  /-- step 2: `await req.json()`. -/
  | parseBody
  /-- step 3: `await x402.createPaymentRequirements(...)`. -/
  | buildReqs
  /-- step 4a: standard `x402.verifyPayment` (`none`: the call threw). -/
  | verifyX402 (ok : Option Bool)
  /-- step 4b: manual custom-header verification (RPC errors are caught
  locally and count as not verified). -/
  | verifyCustom (ok : Bool)
  /-- step 5: `generateUI` / `generatePremiumUI`. -/
  | generate
  /-- step 6: `await x402.settlePayment(...)` (standard path only). -/
  | settle (ok : Bool)
  /-- step 7 (or an early return): the response is produced. -/
  | respond (status : Nat)
  deriving DecidableEq, Repr

/-- The phase number of a step, for stating the linear order. -/
def phase : Ev → Nat
  | .extract => 0
  | .parseBody => 1
  | .buildReqs => 2
  | .verifyX402 _ => 3
  | .verifyCustom _ => 3
  | .generate => 4
  | .settle _ => 5
  | .respond _ => 6

/-- The control-flow outcomes of one execution of a protected route. -/
inductive Flow where
  /-- `req.json()` threw: caught by the outer handler, 500. -/
  | jsonFail
  /-- `createPaymentRequirements` threw: caught by the outer handler, 500. -/
  | reqsFail
  /-- neither payment form present: 402 with payment requirements. -/
  | noPayment (price : Nat)
  /-- standard path, `verifyPayment` threw: 500. -/
  | x402Err
  /-- standard path, `isValid` false: 402. -/
  | x402Fail
  /-- standard path verified; `settleOk` tells whether settlement resolved. -/
  | x402Ok (settleOk : Bool) (ui : JsUIResult)
  /-- custom path, manual verification failed: 402. -/
  | customFail
  /-- custom path verified (no settlement on this path). -/
  | customOk (ui : JsUIResult)

/-- Which control-flow branch the handler takes.  This mirrors the nested
conditionals of the source `POST` function. -/
def flowOf (cfg : EndpointCfg) (w : World) (customSig customPub customTs : Option String)
    (componentType : String) (config : UIConfigR) : Flow :=
  let hasCustom := truthyStr customSig && truthyStr customPub && truthyStr customTs
  let phT := truthyStr w.extracted
  if !w.jsonOk then .jsonFail
  else if !w.reqsOk then .reqsFail
  else
    let price := priceLamports (prices cfg.endpointPath)
    if !phT && !hasCustom then .noPayment price
    else if phT then
      match w.x402Verify with
      | .error _ => .x402Err
      | .ok ok =>
        if ok then .x402Ok w.settleOk (cfg.gen componentType config) else .x402Fail
    else
      let ok :=
        match w.getTx with
        | .error _ => false
        | .ok tx => verifyCustomTx payToAddr tx ((price : ℤ))
      if ok then .customOk (cfg.gen componentType config) else .customFail

/-- The response each control-flow branch produces. -/
def respOf (cfg : EndpointCfg) : Flow → Response
  | .jsonFail => ⟨500, .errorMsg "Internal server error"⟩
  | .reqsFail => ⟨500, .errorMsg "Internal server error"⟩
  | .noPayment price => ⟨create402Status, .paymentRequired price "solana" assetName payToAddr⟩
  | .x402Err => ⟨500, .errorMsg "Internal server error"⟩
  | .x402Fail => ⟨402, .errorMsg "Invalid payment - verification failed"⟩
  | .x402Ok true ui => ⟨200, .successUI ui cfg.tier cfg.successMessage⟩
  | .x402Ok false _ => ⟨500, .errorMsg "Internal server error"⟩
  | .customFail => ⟨402, .errorMsg "Invalid payment - verification failed"⟩
  | .customOk ui => ⟨200, .successUI ui cfg.tier cfg.successMessage⟩

/-- The trace of steps each control-flow branch performs, in order. -/
def traceOf : Flow → List Ev
  | .jsonFail => [.extract, .parseBody, .respond 500]
  | .reqsFail => [.extract, .parseBody, .buildReqs, .respond 500]
  | .noPayment _ => [.extract, .parseBody, .buildReqs, .respond create402Status]
  | .x402Err => [.extract, .parseBody, .buildReqs, .verifyX402 none, .respond 500]
  | .x402Fail => [.extract, .parseBody, .buildReqs, .verifyX402 (some false), .respond 402]
  | .x402Ok true _ =>
      [.extract, .parseBody, .buildReqs, .verifyX402 (some true), .generate,
        .settle true, .respond 200]
  | .x402Ok false _ =>
      [.extract, .parseBody, .buildReqs, .verifyX402 (some true), .generate,
        .settle false, .respond 500]
  | .customFail => [.extract, .parseBody, .buildReqs, .verifyCustom false, .respond 402]
  | .customOk _ =>
      [.extract, .parseBody, .buildReqs, .verifyCustom true, .generate, .respond 200]

/-- One execution of a protected route's `POST`: the response together
with the trace of steps taken. -/
def handlerPOST (cfg : EndpointCfg) (w : World) (customSig customPub customTs : Option String)
    (componentType : String) (config : UIConfigR) : Response × List Ev :=
  (respOf cfg (flowOf cfg w customSig customPub customTs componentType config),
    traceOf (flowOf cfg w customSig customPub customTs componentType config))

/-- `POST` of `src/app/api/render-ui/route.ts`. -/
def renderUiPOST (w : World) (customSig customPub customTs : Option String)
    (componentType : String) (config : UIConfigR) : Response × List Ev :=
  handlerPOST renderCfg w customSig customPub customTs componentType config

/-- `POST` of `src/app/api/premium-ui/route.ts`. -/
def premiumUiPOST (r : ℕ → ℚ) (w : World) (customSig customPub customTs : Option String)
    (componentType : String) (config : UIConfigR) : Response × List Ev :=
  handlerPOST (premiumCfg r) w customSig customPub customTs componentType config

/-! ## Sequential serving (statelessness) -/

/-- Everything that determines one request to a protected route: the
endpoint, the request contents, and the external responses observed. -/
structure RequestEnv where
  cfg : EndpointCfg
  w : World
  customSig : Option String
  customPub : Option String
  customTs : Option String
  componentType : String
  config : UIConfigR

/-- Handle a single request. -/
def handleReq (e : RequestEnv) : Response × List Ev :=
  handlerPOST e.cfg e.w e.customSig e.customPub e.customTs e.componentType e.config

/-- Handle a sequence of requests in order.  The handlers keep no mutable
module state (the only module-level binding is the frozen handler
configuration), so serving is pointwise. -/
def serveSeq (reqs : List RequestEnv) : List (Response × List Ev) :=
  reqs.map handleReq

/-! ## `src/app/api/verify-payment/route.ts` -/

/-- The parsed request body of the verify-payment route (absent fields are
`none`). -/
structure VerifyBody where
  signature : Option String
  publicKey : Option String
  endpoint : Option String
  deriving DecidableEq, Repr

/-- `POST` of `src/app/api/verify-payment/route.ts`.  `body` is the result
of `req.json()` (`.error` models a thrown parse); `getTx` the RPC lookup
`verifyPaymentTransaction` would perform; `now` is `Date.now()`. -/
def verifyPaymentPOST (body : Except Unit VerifyBody) (getTx : RpcTx) (now : Nat) : Response :=
  match body with
  | .error _ => ⟨500, .errorMsg "Verification failed"⟩
  | .ok b =>
    if !(truthyStr b.signature && truthyStr b.publicKey && truthyStr b.endpoint) then
      ⟨400, .errorMsg "Missing required fields"⟩
    else
      -- `if (!expectedPrice)` is falsy on `undefined` and on a zero
      -- price; an inherited Object.prototype member is truthy and slips
      -- through to the on-chain verification.
      match prices (b.endpoint.getD "") with
      | .undefinedValue => ⟨400, .errorMsg "Invalid endpoint"⟩
      | .price n =>
        if n = 0 then ⟨400, .errorMsg "Invalid endpoint"⟩
        else if verifyPaymentTransaction getTx (n : ℤ) payToAddr then
          ⟨200, .verifiedTrue (b.signature.getD "") now⟩
        else
          ⟨402, .verifiedFalse "Payment verification failed"⟩
      | .protoMember _ =>
        -- the source passes the inherited function as `expectedPrice`;
        -- `verifyPaymentTransaction` never reads that parameter, so a
        -- stand-in lamport value is behaviourally exact.
        if verifyPaymentTransaction getTx 0 payToAddr then
          ⟨200, .verifiedTrue (b.signature.getD "") now⟩
        else
          ⟨402, .verifiedFalse "Payment verification failed"⟩

/-! ## `src/lib/x402-client.ts` -/

/-- A client-side payment proof (`signature`, `publicKey`, `timestamp`). -/
structure PaymentProof where
  signature : String
  publicKey : String
  timestamp : Nat
  deriving DecidableEq, Repr

/-- The machine-readable payment terms of a 402 body, as the client reads
them. -/
structure PaymentRequiredR where
  price : Nat
  network : String
  asset : String
  payTo : String
  deriving DecidableEq, Repr

/-- A fetch response, as far as `fetchWithPayment` inspects it: its status
and (when read on a 402) its JSON payment terms. -/
structure HttpResp where
  status : Nat
  paymentJson : PaymentRequiredR
  deriving DecidableEq, Repr

/-- Request headers as a finite map; `setHeader` is the object-spread
override `{...options?.headers, 'X-...': v}`. -/
def setHeader (hs : String → Option String) (k v : String) : String → Option String :=
  fun k' => if k' = k then some v else hs k'

/-- The three payment-proof headers the client sets on the retry. -/
def withPaymentHeaders (hs : String → Option String) (proof : PaymentProof) :
    String → Option String :=
  setHeader
    (setHeader (setHeader hs "X-Payment-Signature" proof.signature)
      "X-Payment-PublicKey" proof.publicKey)
    "X-Payment-Timestamp" (toString proof.timestamp)

/-- `fetchWithPayment(url, options, onPaymentRequired)`.  The network is
the oracle `doFetch` from the headers sent to the response received; the
result pairs the outcome (`.error` models the thrown
`'Payment required but no payment handler provided'`) with the log of
fetch calls made (each entry the headers of one call). -/
def fetchWithPayment (doFetch : (String → Option String) → HttpResp)
    (baseHeaders : String → Option String)
    (onPaymentRequired : Option (PaymentRequiredR → Option PaymentProof)) :
    Except String HttpResp × List (String → Option String) :=
  let resp := doFetch baseHeaders
  if resp.status = 402 then
    match onPaymentRequired with
    | some handler =>
      match handler resp.paymentJson with
      | some proof =>
        let hs := withPaymentHeaders baseHeaders proof
        (.ok (doFetch hs), [baseHeaders, hs])
      | none => (.error "Payment required but no payment handler provided", [baseHeaders])
    | none => (.error "Payment required but no payment handler provided", [baseHeaders])
  else
    (.ok resp, [baseHeaders])

/-! ## The client-side `UIRenderer` (`src/unnamed/part_002`) -/

/-- Which renderer component `UIRenderer` hands the payload to (together
with the optional transaction-signature link each branch appends).
`unsupported` is the `default` branch ("Unsupported UI type"). -/
inductive RenderOut where
  | gridView (layout : GridLayout) (sigLink : Option String)
  | cardView (title content : String) (actions : List CardAction) (sigLink : Option String)
  | dashboardView (widgets : List Widget) (sigLink : Option String)
  | advancedGridView (columns : ℚ) (rows : String) (gap : ℚ) (items : List AdvItem)
      (animations : Bool) (interactions : List String) (sigLink : Option String)
  | dataTableView (columns : List DataColumn) (data : List TableRow) (features : List String)
      (sigLink : Option String)
  | analyticsView (sections : List AnalyticsSection) (sigLink : Option String)
  | marketsView (markets : List MarketData) (meta : MarketsMeta) (sigLink : Option String)
  | unsupported
  deriving DecidableEq, Repr

/-- The `switch (ui.type)` of `UIRenderer`.  The seven cases cover every
`UIData` variant, so the source's `default` branch (`unsupported`) is
unreachable. -/
def uiRenderer (ui : UIData) (signature : Option String) : RenderOut :=
  match ui with
  | .grid layout => .gridView layout signature
  | .card title content actions => .cardView title content actions signature
  | .dashboard widgets => .dashboardView widgets signature
  | .advancedGrid c rw g it an ix => .advancedGridView c rw g it an ix signature
  | .dataTable cols data feats => .dataTableView cols data feats signature
  | .analyticsDashboard sections => .analyticsView sections signature
  | .markets ms meta => .marketsView ms meta signature

/-! ## Specification-side predicates -/

/-- A degenerate `Math.random` oracle. -/
def rZero : ℕ → ℚ := fun _ => 0

/-- A world whose request carries no payment proof of either form. -/
def wNoPayment : World :=
  { extracted := none, jsonOk := true, reqsOk := true, x402Verify := .ok false,
    getTx := .ok none, settleOk := true }

/-- A world whose request carries a standard x402 payment header that the
facilitator accepts. -/
def wStdPaid : World :=
  { extracted := some "payment-header", jsonOk := true, reqsOk := true,
    x402Verify := .ok true, getTx := .ok none, settleOk := true }

/-- A successful on-chain transaction that pays some unrelated account and
never touches the treasury. -/
def txOtherRecipient : TxResp :=
  { meta := some { err := false, preBalances := [100], postBalances := [50] }
    staticAccountKeys := ["SomeOtherAccount111111111111111111111111111"] }

/-- A fetch oracle for the client witness: 402 until the payment-signature
header is present, then 200. -/
def fetchStub : (String → Option String) → HttpResp :=
  fun hs =>
    if (hs "X-Payment-Signature").isSome then
      { status := 200, paymentJson := { price := 0, network := "", asset := "", payTo := "" } }
    else
      { status := 402,
        paymentJson :=
          { price := 500000, network := "solana", asset := assetName, payTo := payToAddr } }

/-- The payment proof the witness's handler produces. -/
def proofStub : PaymentProof :=
  { signature := "sig", publicKey := "pk", timestamp := 1700000000000 }

/-! ## Helper lemmas -/

/-- Without either payment form, both routes take the payment-required
branch. -/
theorem handler_noPayment (cfg : EndpointCfg) (w : World) (sig pub ts : Option String)
    (ct : String) (conf : UIConfigR)
    (hph : truthyStr w.extracted = false)
    (hc : (truthyStr sig && truthyStr pub && truthyStr ts) = false)
    (hj : w.jsonOk = true) (hr : w.reqsOk = true) :
    handlerPOST cfg w sig pub ts ct conf =
      (⟨402, .paymentRequired (priceLamports (prices cfg.endpointPath)) "solana" assetName
          payToAddr⟩,
        [.extract, .parseBody, .buildReqs, .respond 402]) := by
  simp [handlerPOST, flowOf, respOf, traceOf, hph, hc, hj, hr, create402Status]

/-- With a (truthy) standard payment header, the handler takes the x402
path: its behaviour does not depend on the custom headers or on the RPC
lookup. -/
theorem handler_x402_independent (cfg : EndpointCfg) (w : World) (sig pub ts : Option String)
    (ct : String) (conf : UIConfigR) (g' : RpcTx) (sig' pub' ts' : Option String)
    (hph : truthyStr w.extracted = true) :
    handlerPOST cfg w sig pub ts ct conf =
      handlerPOST cfg { w with getTx := g' } sig' pub' ts' ct conf := by
  simp [handlerPOST, flowOf, hph]

/-- With a (truthy) standard payment header, no custom verification step
is ever performed. -/
theorem handler_x402_no_custom (cfg : EndpointCfg) (w : World) (sig pub ts : Option String)
    (ct : String) (conf : UIConfigR) (b : Bool)
    (hph : truthyStr w.extracted = true) :
    Ev.verifyCustom b ∉ (handlerPOST cfg w sig pub ts ct conf).2 := by
  simp only [handlerPOST]
  cases hj : w.jsonOk with
  | false => simp [flowOf, hj, traceOf]
  | true =>
    cases hr : w.reqsOk with
    | false => simp [flowOf, hj, hr, traceOf]
    | true =>
      simp only [flowOf, hph, hj, hr]
      cases hv : w.x402Verify with
      | error e => simp [traceOf]
      | ok ok =>
        cases ok
        · simp [traceOf]
        · cases hs : w.settleOk <;> simp [traceOf, hs]

/-- A verification step (of either kind) runs exactly when one of the two
payment forms is present. -/
theorem handler_verify_occurs (cfg : EndpointCfg) (w : World) (sig pub ts : Option String)
    (ct : String) (conf : UIConfigR) (hj : w.jsonOk = true) (hr : w.reqsOk = true) :
    ((∃ o, Ev.verifyX402 o ∈ (handlerPOST cfg w sig pub ts ct conf).2) ∨
      (∃ b, Ev.verifyCustom b ∈ (handlerPOST cfg w sig pub ts ct conf).2))
    ↔ (truthyStr w.extracted || (truthyStr sig && truthyStr pub && truthyStr ts)) = true := by
  simp only [handlerPOST]
  rcases Bool.dichotomy (truthyStr w.extracted) with hph | hph
  · rcases Bool.dichotomy (truthyStr sig && truthyStr pub && truthyStr ts) with hc | hc
    · simp only [flowOf, hph, hc, hj, hr]
      simp [traceOf]
    · simp only [flowOf, hph, hc, hj, hr]
      cases hg : w.getTx with
      | error e => simp [traceOf]
      | ok tx =>
        rcases Bool.dichotomy
            (verifyCustomTx payToAddr tx ((priceLamports (prices cfg.endpointPath) : ℤ))) with
          hv | hv <;> simp [hv, traceOf]
  · simp only [flowOf, hph, hj, hr]
    cases hx : w.x402Verify with
    | error e => simp [traceOf]
    | ok ok =>
      cases ok
      · simp [traceOf]
      · cases hs : w.settleOk <;> simp [traceOf, hs]

/-- Per-branch facts behind the linear-flow claim: step phases are strictly
increasing, the generator runs only after a successful verification, a
success body entails a successful verification, and a failed verification
yields the 402 error with no generation. -/
theorem flow_props (cfg : EndpointCfg) (f : Flow) :
    ((traceOf f).map phase).Chain' (· < ·)
  ∧ (Ev.generate ∈ traceOf f →
      Ev.verifyX402 (some true) ∈ traceOf f ∨ Ev.verifyCustom true ∈ traceOf f)
  ∧ (∀ ui t msg, (respOf cfg f).body = .successUI ui t msg →
      Ev.generate ∈ traceOf f ∧
      (Ev.verifyX402 (some true) ∈ traceOf f ∨ Ev.verifyCustom true ∈ traceOf f) ∧
      (respOf cfg f).status = 200)
  ∧ ((Ev.verifyX402 (some false) ∈ traceOf f ∨ Ev.verifyCustom false ∈ traceOf f) →
      respOf cfg f = ⟨402, .errorMsg "Invalid payment - verification failed"⟩ ∧
      Ev.generate ∉ traceOf f) := by
  cases f with
  | jsonFail => exact ⟨by simp [traceOf, phase], by simp [traceOf], by simp [respOf], by simp [traceOf, respOf]⟩
  | reqsFail => exact ⟨by simp [traceOf, phase], by simp [traceOf], by simp [respOf], by simp [traceOf, respOf]⟩
  | noPayment price =>
    exact ⟨by simp [traceOf, phase, create402Status], by simp [traceOf, create402Status],
      by simp [respOf], by simp [traceOf, respOf, create402Status]⟩
  | x402Err => exact ⟨by simp [traceOf, phase], by simp [traceOf], by simp [respOf], by simp [traceOf, respOf]⟩
  | x402Fail =>
    refine ⟨by simp [traceOf, phase], by simp [traceOf], by simp [respOf], ?_⟩
    intro _
    exact ⟨rfl, by simp [traceOf]⟩
  | x402Ok s ui =>
    cases s
    · exact ⟨by simp [traceOf, phase], fun _ => by simp [traceOf], by simp [respOf],
        by simp [traceOf]⟩
    · refine ⟨by simp [traceOf, phase], fun _ => by simp [traceOf], ?_, by simp [traceOf]⟩
      intro ui' t' msg' h
      exact ⟨by simp [traceOf], by simp [traceOf], rfl⟩
  | customFail =>
    refine ⟨by simp [traceOf, phase], by simp [traceOf], by simp [respOf], ?_⟩
    intro _
    exact ⟨rfl, by simp [traceOf]⟩
  | customOk ui =>
    refine ⟨by simp [traceOf, phase], fun _ => by simp [traceOf], ?_, by simp [traceOf]⟩
    intro ui' t' msg' h
    exact ⟨by simp [traceOf], by simp [traceOf], rfl⟩

/-! ## The claims -/

/-- Claim C1: a POST to /api/render-ui or /api/premium-ui that carries
neither a standard x402 payment header nor the complete custom header
triple is answered with status 402 and a machine-readable payment-terms
body — `paymentRequired: true`, the endpoint's configured price (500000
lamports), network `solana`, asset `SOL`, and the configured `payTo`
address — rather than a UI payload. -/
theorem c1_no_payment_402 (w : World) (sig pub ts : Option String) (ct : String)
    (conf : UIConfigR) (r : ℕ → ℚ)
    (hph : w.extracted = none)
    (hcust : sig = none ∨ pub = none ∨ ts = none)
    (hj : w.jsonOk = true) (hr : w.reqsOk = true) :
    (renderUiPOST w sig pub ts ct conf).1 =
      ⟨402, .paymentRequired 500000 "solana" assetName payToAddr⟩
  ∧ (premiumUiPOST r w sig pub ts ct conf).1 =
      ⟨402, .paymentRequired 500000 "solana" assetName payToAddr⟩ := by
  have hph' : truthyStr w.extracted = false := by rw [hph]; rfl
  have hc : (truthyStr sig && truthyStr pub && truthyStr ts) = false := by
    rcases hcust with h | h | h <;> subst h <;> simp [truthyStr]
  constructor
  · rw [renderUiPOST, handler_noPayment renderCfg w sig pub ts ct conf hph' hc hj hr]
    rfl
  · rw [premiumUiPOST, handler_noPayment (premiumCfg r) w sig pub ts ct conf hph' hc hj hr]
    rfl


/-- Witness for C1 at a concrete unpaid request. -/
theorem c1_no_payment_402_witness :
    (renderUiPOST wNoPayment none none none "grid" {}).1 =
      ⟨402, .paymentRequired 500000 "solana" assetName payToAddr⟩
  ∧ (premiumUiPOST rZero wNoPayment none none none "grid" {}).1 =
      ⟨402, .paymentRequired 500000 "solana" assetName payToAddr⟩ :=
  c1_no_payment_402 wNoPayment none none none "grid" {} rZero rfl (Or.inl rfl) rfl rfl

/-- Claim C2 (counterexample): `verifyPaymentTransaction` accepts a
successful on-chain transaction whose account keys never mention the
expected recipient (and which therefore transferred nothing to it) — the
`_expectedAmount`/`_expectedRecipient` parameters are not consulted.  For
contrast, the routes' own custom-header check rejects the same
transaction. -/
theorem c2_counterexample :
    verifyPaymentTransaction (Except.ok (some txOtherRecipient)) 500000 payToAddr = true
  ∧ payToAddr ∉ txOtherRecipient.staticAccountKeys
  ∧ verifyCustomTx payToAddr (some txOtherRecipient) 500000 = false :=
  ⟨rfl, by decide, rfl⟩

/-- Claim C2 (amended): `verifyPaymentTransaction` returns `true` exactly
when the RPC lookup does not throw, the transaction is found and carries
metadata, and its on-chain error field is null; the expected amount and
expected recipient are never consulted, so the result is independent of
them. -/
theorem c2_amended_verify (getTx : RpcTx) (amount : ℤ) (recipient : String) :
    (verifyPaymentTransaction getTx amount recipient = true ↔
      ∃ t m, getTx = Except.ok (some t) ∧ t.meta = some m ∧ m.err = false)
  ∧ (∀ amount' recipient',
      verifyPaymentTransaction getTx amount recipient =
        verifyPaymentTransaction getTx amount' recipient') := by
  refine ⟨?_, fun _ _ => rfl⟩
  cases getTx with
  | error e => simp [verifyPaymentTransaction]
  | ok o =>
    cases o with
    | none => simp [verifyPaymentTransaction]
    | some t =>
      cases hm : t.meta with
      | none => simp [verifyPaymentTransaction, hm]
      | some m => simp [verifyPaymentTransaction, hm]

/-- Claim C4: the two routes accept payment proof in exactly two forms.
(1) With no standard header and an incomplete custom triple the request is
unpaid: 402 with payment terms.  (2) With a standard header present the
standard x402 path is used: the response is independent of the custom
headers and of the RPC lookup, and (3) no custom verification step runs.
(4) A verification step runs exactly when a standard header or the
complete (truthy) custom triple is present. -/
theorem c4_two_payment_forms (w : World) (sig pub ts : Option String) (ct : String)
    (conf : UIConfigR) (r : ℕ → ℚ) :
    ((sig = none ∨ pub = none ∨ ts = none) → w.extracted = none →
      w.jsonOk = true → w.reqsOk = true →
      (renderUiPOST w sig pub ts ct conf).1 =
        ⟨402, .paymentRequired 500000 "solana" assetName payToAddr⟩ ∧
      (premiumUiPOST r w sig pub ts ct conf).1 =
        ⟨402, .paymentRequired 500000 "solana" assetName payToAddr⟩)
  ∧ (truthyStr w.extracted = true →
      ∀ (g' : RpcTx) (sig' pub' ts' : Option String),
        renderUiPOST w sig pub ts ct conf =
          renderUiPOST { w with getTx := g' } sig' pub' ts' ct conf ∧
        premiumUiPOST r w sig pub ts ct conf =
          premiumUiPOST r { w with getTx := g' } sig' pub' ts' ct conf)
  ∧ (truthyStr w.extracted = true → ∀ b : Bool,
      Ev.verifyCustom b ∉ (renderUiPOST w sig pub ts ct conf).2 ∧
      Ev.verifyCustom b ∉ (premiumUiPOST r w sig pub ts ct conf).2)
  ∧ (w.jsonOk = true → w.reqsOk = true →
      (((∃ o, Ev.verifyX402 o ∈ (renderUiPOST w sig pub ts ct conf).2) ∨
        (∃ b, Ev.verifyCustom b ∈ (renderUiPOST w sig pub ts ct conf).2)) ↔
        (truthyStr w.extracted || (truthyStr sig && truthyStr pub && truthyStr ts)) = true) ∧
      (((∃ o, Ev.verifyX402 o ∈ (premiumUiPOST r w sig pub ts ct conf).2) ∨
        (∃ b, Ev.verifyCustom b ∈ (premiumUiPOST r w sig pub ts ct conf).2)) ↔
        (truthyStr w.extracted || (truthyStr sig && truthyStr pub && truthyStr ts)) = true)) := by
  refine ⟨?_, ?_, ?_, ?_⟩
  · intro hcust hph hj hr
    have hph' : truthyStr w.extracted = false := by rw [hph]; rfl
    have hc : (truthyStr sig && truthyStr pub && truthyStr ts) = false := by
      rcases hcust with h | h | h <;> subst h <;> simp [truthyStr]
    constructor
    · rw [renderUiPOST, handler_noPayment renderCfg w sig pub ts ct conf hph' hc hj hr]
      rfl
    · rw [premiumUiPOST, handler_noPayment (premiumCfg r) w sig pub ts ct conf hph' hc hj hr]
      rfl
  · intro hph g' sig' pub' ts'
    exact ⟨handler_x402_independent renderCfg w sig pub ts ct conf g' sig' pub' ts' hph,
      handler_x402_independent (premiumCfg r) w sig pub ts ct conf g' sig' pub' ts' hph⟩
  · intro hph b
    exact ⟨handler_x402_no_custom renderCfg w sig pub ts ct conf b hph,
      handler_x402_no_custom (premiumCfg r) w sig pub ts ct conf b hph⟩
  · intro hj hr
    exact ⟨handler_verify_occurs renderCfg w sig pub ts ct conf hj hr,
      handler_verify_occurs (premiumCfg r) w sig pub ts ct conf hj hr⟩

/-- Witness for C4: with a standard header and a full custom triple both
present, no custom verification step runs on either route. -/
theorem c4_two_payment_forms_witness :
    Ev.verifyCustom true ∉ (renderUiPOST wStdPaid (some "s") (some "p") (some "t") "grid" {}).2 ∧
    Ev.verifyCustom true ∉
      (premiumUiPOST rZero wStdPaid (some "s") (some "p") (some "t") "grid" {}).2 :=
  (c4_two_payment_forms wStdPaid (some "s") (some "p") (some "t") "grid" {} rZero).2.2.1 rfl true

/-- Claim C5: every execution follows the linear order extract → parse →
build requirements → verify → generate → settle → respond (strictly
increasing phases); the UI generator runs only after a successful
verification step; a success body entails a successful verification and
status 200; and a failed verification yields the 402 error body with no
generation.  Stated for both routes. -/
theorem c5_linear_flow (w : World) (sig pub ts : Option String) (ct : String)
    (conf : UIConfigR) (r : ℕ → ℚ) :
    (((renderUiPOST w sig pub ts ct conf).2.map phase).Chain' (· < ·)
  ∧ (Ev.generate ∈ (renderUiPOST w sig pub ts ct conf).2 →
      Ev.verifyX402 (some true) ∈ (renderUiPOST w sig pub ts ct conf).2 ∨
      Ev.verifyCustom true ∈ (renderUiPOST w sig pub ts ct conf).2)
  ∧ (∀ ui t msg, (renderUiPOST w sig pub ts ct conf).1.body = .successUI ui t msg →
      Ev.generate ∈ (renderUiPOST w sig pub ts ct conf).2 ∧
      (Ev.verifyX402 (some true) ∈ (renderUiPOST w sig pub ts ct conf).2 ∨
        Ev.verifyCustom true ∈ (renderUiPOST w sig pub ts ct conf).2) ∧
      (renderUiPOST w sig pub ts ct conf).1.status = 200)
  ∧ ((Ev.verifyX402 (some false) ∈ (renderUiPOST w sig pub ts ct conf).2 ∨
      Ev.verifyCustom false ∈ (renderUiPOST w sig pub ts ct conf).2) →
      (renderUiPOST w sig pub ts ct conf).1 =
        ⟨402, .errorMsg "Invalid payment - verification failed"⟩ ∧
      Ev.generate ∉ (renderUiPOST w sig pub ts ct conf).2))
  ∧ (((premiumUiPOST r w sig pub ts ct conf).2.map phase).Chain' (· < ·)
  ∧ (Ev.generate ∈ (premiumUiPOST r w sig pub ts ct conf).2 →
      Ev.verifyX402 (some true) ∈ (premiumUiPOST r w sig pub ts ct conf).2 ∨
      Ev.verifyCustom true ∈ (premiumUiPOST r w sig pub ts ct conf).2)
  ∧ (∀ ui t msg, (premiumUiPOST r w sig pub ts ct conf).1.body = .successUI ui t msg →
      Ev.generate ∈ (premiumUiPOST r w sig pub ts ct conf).2 ∧
      (Ev.verifyX402 (some true) ∈ (premiumUiPOST r w sig pub ts ct conf).2 ∨
        Ev.verifyCustom true ∈ (premiumUiPOST r w sig pub ts ct conf).2) ∧
      (premiumUiPOST r w sig pub ts ct conf).1.status = 200)
  ∧ ((Ev.verifyX402 (some false) ∈ (premiumUiPOST r w sig pub ts ct conf).2 ∨
      Ev.verifyCustom false ∈ (premiumUiPOST r w sig pub ts ct conf).2) →
      (premiumUiPOST r w sig pub ts ct conf).1 =
        ⟨402, .errorMsg "Invalid payment - verification failed"⟩ ∧
      Ev.generate ∉ (premiumUiPOST r w sig pub ts ct conf).2)) :=
  ⟨flow_props renderCfg (flowOf renderCfg w sig pub ts ct conf),
    flow_props (premiumCfg r) (flowOf (premiumCfg r) w sig pub ts ct conf)⟩

/-- Witness for C5: on a concrete verified execution, a successful
verification step is indeed in the trace. -/
theorem c5_linear_flow_witness :
    Ev.verifyX402 (some true) ∈ (renderUiPOST wStdPaid none none none "grid" {}).2 ∨
    Ev.verifyCustom true ∈ (renderUiPOST wStdPaid none none none "grid" {}).2 :=
  (c5_linear_flow wStdPaid none none none "grid" {} rZero).1.2.1 (by decide)

/-- Claim C6: `fetchWithPayment` returns a non-402 first response
unchanged; on a 402, with a handler returning a proof it performs exactly
one retry whose headers carry the proof's signature, public key and
timestamp in the three `X-Payment-*` headers and returns that retry's
response; with no handler, or a handler returning null, it throws. -/
theorem c6_fetch_with_payment (doFetch : (String → Option String) → HttpResp)
    (base : String → Option String)
    (onPay : Option (PaymentRequiredR → Option PaymentProof)) :
    ((doFetch base).status ≠ 402 →
      fetchWithPayment doFetch base onPay = (.ok (doFetch base), [base]))
  ∧ ((doFetch base).status = 402 → ∀ handler proof, onPay = some handler →
      handler (doFetch base).paymentJson = some proof →
      fetchWithPayment doFetch base onPay =
        (.ok (doFetch (withPaymentHeaders base proof)),
          [base, withPaymentHeaders base proof]) ∧
      withPaymentHeaders base proof "X-Payment-Signature" = some proof.signature ∧
      withPaymentHeaders base proof "X-Payment-PublicKey" = some proof.publicKey ∧
      withPaymentHeaders base proof "X-Payment-Timestamp" = some (toString proof.timestamp))
  ∧ ((doFetch base).status = 402 → onPay = none →
      (fetchWithPayment doFetch base onPay).1 =
        .error "Payment required but no payment handler provided")
  ∧ ((doFetch base).status = 402 → ∀ handler, onPay = some handler →
      handler (doFetch base).paymentJson = none →
      (fetchWithPayment doFetch base onPay).1 =
        .error "Payment required but no payment handler provided") := by
  refine ⟨?_, ?_, ?_, ?_⟩
  · intro h
    simp only [fetchWithPayment]
    rw [if_neg h]
  · intro h handler proof hh hp
    subst hh
    simp only [fetchWithPayment]
    rw [if_pos h, hp]
    exact ⟨rfl, rfl, rfl, rfl⟩
  · intro h hh
    subst hh
    simp only [fetchWithPayment]
    rw [if_pos h]
  · intro h handler hh hp
    subst hh
    simp only [fetchWithPayment]
    rw [if_pos h, hp]

/-- Witness for C6 at a concrete 402-then-retry exchange. -/
theorem c6_fetch_with_payment_witness :
    (fetchStub (fun _ => none)).status = 402 ∧
    fetchWithPayment fetchStub (fun _ => none) (some (fun _ => some proofStub)) =
      (.ok (fetchStub (withPaymentHeaders (fun _ => none) proofStub)),
        [(fun _ => none), withPaymentHeaders (fun _ => none) proofStub]) :=
  ⟨rfl,
    ((c6_fetch_with_payment fetchStub (fun _ => none) (some (fun _ => some proofStub))).2.1
      rfl (fun _ => some proofStub) proofStub rfl rfl).1⟩

/-- Claim C7: the protected routes retain no state between requests: in a
sequence of served requests, each response is exactly the handler applied
to that request alone (given its fixed contents and external responses),
independent of whatever requests come before or after. -/
theorem c7_stateless (pre suf : List RequestEnv) (e : RequestEnv) :
    (serveSeq (pre ++ e :: suf))[pre.length]? = some (handleReq e) := by
  induction pre with
  | nil => simp [serveSeq]
  | cons a l ih => simpa [serveSeq] using ih

/-- Claim C8: there are exactly seven UI payload shapes — every payload's
`type` is one of the seven strings — and `UIRenderer` maps each of the
seven to its corresponding renderer (so the `default` "Unsupported UI
type" branch is never taken). -/
theorem c8_seven_shapes :
    (∀ u : UIData, uiTypeName u ∈
      ["grid", "card", "dashboard", "advanced-grid", "data-table",
        "analytics-dashboard", "markets"])
  ∧ (∀ (u : UIData) (s : Option String), uiRenderer u s ≠ .unsupported)
  ∧ (∀ l s, uiRenderer (.grid l) s = .gridView l s)
  ∧ (∀ t c a s, uiRenderer (.card t c a) s = .cardView t c a s)
  ∧ (∀ ws s, uiRenderer (.dashboard ws) s = .dashboardView ws s)
  ∧ (∀ c rw g it an ix s,
      uiRenderer (.advancedGrid c rw g it an ix) s = .advancedGridView c rw g it an ix s)
  ∧ (∀ cs d f s, uiRenderer (.dataTable cs d f) s = .dataTableView cs d f s)
  ∧ (∀ se s, uiRenderer (.analyticsDashboard se) s = .analyticsView se s)
  ∧ (∀ ms me s, uiRenderer (.markets ms me) s = .marketsView ms me s) := by
  refine ⟨?_, ?_, fun _ _ => rfl, fun _ _ _ _ => rfl, fun _ _ => rfl,
    fun _ _ _ _ _ _ _ => rfl, fun _ _ _ _ => rfl, fun _ _ => rfl, fun _ _ _ => rfl⟩
  · intro u
    cases u <;> simp [uiTypeName]
  · intro u s
    cases u <;> simp [uiRenderer]

/-- Claim C9 (counterexample): the default template is NOT returned for
every unknown `componentType`: at the inherited `Object.prototype` key
`toString` — which lies outside {grid, card, dashboard} and outside
{advanced-grid, data-table, analytics} — the bracket lookup yields the
truthy inherited member, so neither `generateUI` nor `generatePremiumUI`
falls back to its default template (and the serialized response then
carries no `ui` field at all). -/
theorem c9_counterexample :
    ("toString" : String) ∉ (["grid", "card", "dashboard"] : List String)
  ∧ generateUI "toString" {} = .protoMember "toString"
  ∧ generateUI "toString" {} ≠ .ui (gridTemplate {})
  ∧ ("toString" : String) ∉ (["advanced-grid", "data-table", "analytics"] : List String)
  ∧ generatePremiumUI rZero "toString" {} = .protoMember "toString"
  ∧ generatePremiumUI rZero "toString" {} ≠ .ui (advancedGridTemplate rZero {}) := by
  have h1 : generateUI "toString" ({} : UIConfigR) = .protoMember "toString" := rfl
  have h2 : generatePremiumUI rZero "toString" ({} : UIConfigR) = .protoMember "toString" := rfl
  refine ⟨by decide, h1, ?_, by decide, h2, ?_⟩
  · rw [h1]
    simp
  · rw [h2]
    simp

/-- Claim C9 (amended): for every `componentType` outside
{grid, card, dashboard} that is not an inherited `Object.prototype`
property key, `generateUI` returns the grid template, and for every
`componentType` outside {advanced-grid, data-table, analytics} that is
not an inherited key, `generatePremiumUI` returns the advanced-grid
template; at an inherited `Object.prototype` key the bracket lookup
returns the truthy inherited member instead of any template. -/
theorem c9_default_templates (ct : String) (conf : UIConfigR) (r : ℕ → ℚ) :
    (ct ∉ ["grid", "card", "dashboard"] → ct ∉ objectPrototypeKeys →
      generateUI ct conf = .ui (gridTemplate conf))
  ∧ (ct ∉ ["advanced-grid", "data-table", "analytics"] → ct ∉ objectPrototypeKeys →
      generatePremiumUI r ct conf = .ui (advancedGridTemplate r conf))
  ∧ (ct ∉ ["grid", "card", "dashboard"] → ct ∈ objectPrototypeKeys →
      generateUI ct conf = .protoMember ct)
  ∧ (ct ∉ ["advanced-grid", "data-table", "analytics"] → ct ∈ objectPrototypeKeys →
      generatePremiumUI r ct conf = .protoMember ct) := by
  refine ⟨?_, ?_, ?_, ?_⟩
  · intro h hp
    simp only [List.mem_cons, List.not_mem_nil, or_false, not_or] at h
    obtain ⟨h1, h2, h3⟩ := h
    simp [generateUI, h1, h2, h3, hp]
  · intro h hp
    simp only [List.mem_cons, List.not_mem_nil, or_false, not_or] at h
    obtain ⟨h1, h2, h3⟩ := h
    simp [generatePremiumUI, h1, h2, h3, hp]
  · intro h hp
    simp only [List.mem_cons, List.not_mem_nil, or_false, not_or] at h
    obtain ⟨h1, h2, h3⟩ := h
    simp [generateUI, h1, h2, h3, hp]
  · intro h hp
    simp only [List.mem_cons, List.not_mem_nil, or_false, not_or] at h
    obtain ⟨h1, h2, h3⟩ := h
    simp [generatePremiumUI, h1, h2, h3, hp]

/-- Witness for C9 (amended) at the plain unknown key `markets` and the
inherited key `toString`. -/
theorem c9_default_templates_witness :
    generateUI "markets" {} = .ui (gridTemplate {}) ∧
    generatePremiumUI rZero "markets" {} = .ui (advancedGridTemplate rZero {}) ∧
    generateUI "toString" {} = .protoMember "toString" ∧
    generatePremiumUI rZero "toString" {} = .protoMember "toString" :=
  ⟨(c9_default_templates "markets" {} rZero).1 (by decide) (by decide),
    (c9_default_templates "markets" {} rZero).2.1 (by decide) (by decide),
    (c9_default_templates "toString" {} rZero).2.2.1 (by decide) (by decide),
    (c9_default_templates "toString" {} rZero).2.2.2 (by decide) (by decide)⟩

/-- Claim C10 (counterexample): the claim fails at two concrete inputs.
A body whose `endpoint` field is present but empty is not a configured
price key, yet the route answers `Missing required fields`, not
`Invalid endpoint` — JS truthiness treats the present-but-empty field as
missing.  And at the inherited `Object.prototype` key `toString` — also
not a configured price key — `prices[endpoint]` is the truthy inherited
member, so the route skips the `Invalid endpoint` check entirely and
performs the on-chain lookup, here even reporting the payment verified. -/
theorem c10_counterexample :
    verifyPaymentPOST
        (Except.ok { signature := some "sig", publicKey := some "pk", endpoint := some "" })
        (Except.ok none) 0
      = ⟨400, .errorMsg "Missing required fields"⟩
  ∧ prices "" = .undefinedValue
  ∧ (some "" : Option String) ≠ none
  ∧ prices "toString" = .protoMember "toString"
  ∧ verifyPaymentPOST
        (Except.ok { signature := some "sig", publicKey := some "pk", endpoint := some "toString" })
        (Except.ok (some txOtherRecipient)) 7
      = ⟨200, .verifiedTrue "sig" 7⟩ :=
  ⟨rfl, rfl, by decide, rfl, rfl⟩

/-- Claim C10 (amended): if any of `signature`, `publicKey`, `endpoint`
is absent or empty (JS-falsy) the route returns 400 `Missing required
fields`, independently of the RPC oracle; if all three are non-empty and
the endpoint is neither a configured price key nor an inherited
`Object.prototype` property key (`prices[endpoint]` is `undefined`) it
returns 400 `Invalid endpoint`, again with no on-chain lookup; but at an
inherited `Object.prototype` key the truthy inherited member passes the
`!expectedPrice` check and the route does perform the on-chain lookup,
answering 200 or 402 according to the transaction. -/
theorem c10_amended_validation (b : VerifyBody) (getTx getTx' : RpcTx) (now now' : ℕ) :
    ((truthyStr b.signature && truthyStr b.publicKey && truthyStr b.endpoint) = false →
      verifyPaymentPOST (.ok b) getTx now = ⟨400, .errorMsg "Missing required fields"⟩ ∧
      verifyPaymentPOST (.ok b) getTx now = verifyPaymentPOST (.ok b) getTx' now')
  ∧ ((truthyStr b.signature && truthyStr b.publicKey && truthyStr b.endpoint) = true →
      prices (b.endpoint.getD "") = .undefinedValue →
      verifyPaymentPOST (.ok b) getTx now = ⟨400, .errorMsg "Invalid endpoint"⟩ ∧
      verifyPaymentPOST (.ok b) getTx now = verifyPaymentPOST (.ok b) getTx' now')
  ∧ (∀ key, (truthyStr b.signature && truthyStr b.publicKey && truthyStr b.endpoint) = true →
      prices (b.endpoint.getD "") = .protoMember key →
      verifyPaymentPOST (.ok b) getTx now =
        (if verifyPaymentTransaction getTx 0 payToAddr then
          ⟨200, .verifiedTrue (b.signature.getD "") now⟩
        else ⟨402, .verifiedFalse "Payment verification failed"⟩)) := by
  refine ⟨?_, ?_, ?_⟩
  · intro h
    constructor <;> simp [verifyPaymentPOST, h]
  · intro h hp
    constructor <;> simp [verifyPaymentPOST, h, hp]
  · intro key h hp
    simp [verifyPaymentPOST, h, hp]

/-- Witness for C10 (amended) at concrete bodies: missing fields, an
unconfigured plain endpoint, and the inherited key `toString`. -/
theorem c10_amended_validation_witness :
    verifyPaymentPOST (Except.ok { signature := none, publicKey := none, endpoint := none })
        (Except.ok none) 0 = ⟨400, .errorMsg "Missing required fields"⟩ ∧
    verifyPaymentPOST
        (Except.ok { signature := some "s", publicKey := some "p", endpoint := some "/nope" })
        (Except.ok none) 0 = ⟨400, .errorMsg "Invalid endpoint"⟩ ∧
    verifyPaymentPOST
        (Except.ok { signature := some "s", publicKey := some "p", endpoint := some "toString" })
        (Except.ok none) 0 =
      (if verifyPaymentTransaction (Except.ok none) 0 payToAddr then
        ⟨200, .verifiedTrue "s" 0⟩
      else ⟨402, .verifiedFalse "Payment verification failed"⟩) :=
  ⟨((c10_amended_validation { signature := none, publicKey := none, endpoint := none }
      (Except.ok none) (Except.ok none) 0 0).1 rfl).1,
    ((c10_amended_validation { signature := some "s", publicKey := some "p", endpoint := some "/nope" }
      (Except.ok none) (Except.ok none) 0 0).2.1 rfl rfl).1,
    (c10_amended_validation { signature := some "s", publicKey := some "p", endpoint := some "toString" }
      (Except.ok none) (Except.ok none) 0 0).2.2 "toString" rfl rfl⟩

end X402Grid
